import Mathlib

/-!
Shallow embedding of the simple-archive repository
(src/simple_archive/simple_archive.py and src/simple_archive/use_cases.py).

Python strings are modelled as Lean String, Python dicts as insertion-ordered
association lists, pydantic validation failures as Except String.  Machine
integers and floating point do not occur in the modelled code.
-/

/-- Helper for pySplit: scan the characters left to right, cutting at each
non-overlapping occurrence of the separator.  The fuel argument (an upper
bound on the number of steps, each step consumes at least one character)
keeps the recursion structural. -/
def pySplitAux (sep : List Char) : Nat → List Char → List Char → List (List Char)
  | 0, cs, acc => [acc.reverse ++ cs]
  | _ + 1, [], acc => [acc.reverse]
  | fuel + 1, c :: rest, acc =>
    if List.isPrefixOf sep (c :: rest) then
      acc.reverse :: pySplitAux sep fuel (List.drop sep.length (c :: rest)) []
    else pySplitAux sep fuel rest (c :: acc)

/-- Python str.split with a nonempty separator: split at each non-overlapping
occurrence, left to right; splitting the empty string yields a singleton list
holding the empty string, and a trailing separator yields a trailing empty
segment. -/
def pySplit (s sep : String) : List String :=
  (pySplitAux sep.data (s.data.length + 1) s.data []).map String.mk

/-- Python string slicing s[: n] (by character index). -/
def pyTake (s : String) (n : Nat) : String :=
  String.mk (s.data.take n)

/-- Join a list of strings with a separator between consecutive elements. -/
def joinWith (sep : String) : List String → String
  | [] => ""
  | [x] => x
  | x :: y :: xs => x ++ sep ++ joinWith sep (y :: xs)

/-- pathlib.PurePosixPath normalisation of a path string: components are
split on the slash, empty and single-dot components are dropped, and a
relative path with no remaining component renders as a single dot
(Path of the empty string is the current directory). -/
def pathOf (s : String) : String :=
  let comps := (pySplit s "/").filter (fun c => !(c == "" || c == "."))
  match s.data with
  | '/' :: _ => "/" ++ joinWith "/" comps
  | _ => if comps.isEmpty then "." else joinWith "/" comps

/-- pathlib Path.name on a normalised path string: the final component,
empty for the current-directory path and for the root. -/
def pathName (p : String) : String :=
  if p = "." || p = "/" then ""
  else ((pySplit p "/").getLast?).getD ""

/-- pathlib Path.suffix: the final extension of the name, dot included;
empty when the name has no dot, starts with its only dot, or ends in a dot. -/
def pySuffix (p : String) : String :=
  let name := pathName (pathOf p)
  let cs := name.data
  match cs.reverse.findIdx? (fun c => c == '.') with
  | none => ""
  | some r =>
    let i := cs.length - 1 - r
    if 0 < i ∧ i < cs.length - 1 then String.mk (cs.drop i) else ""

/-- A character matched by the character class of the regular expression
LANGUAGE_IN_SQUARE_BRACKETS, namely a letter or an underscore. -/
def isLangChar (c : Char) : Bool :=
  c.isAlpha || c == '_'

/-- Attempt to match the bracket body right after an opening square bracket:
a nonempty maximal run of language characters followed by a closing square
bracket; returns the captured group. -/
def langMatchAfter (cs : List Char) : Option String :=
  let run := cs.takeWhile isLangChar
  if run.isEmpty then none
  else
    match cs.drop run.length with
    | ']' :: _ => some (String.mk run)
    | _ => none

/-- Scan for the leftmost match of LANGUAGE_IN_SQUARE_BRACKETS, carrying the
current character index. -/
def findLangAux : List Char → Nat → Option (Nat × String)
  | [], _ => none
  | c :: rest, i =>
    if c = '[' then
      match langMatchAfter rest with
      | some g => some (i, g)
      | none => findLangAux rest (i + 1)
    else findLangAux rest (i + 1)

/-- re.search of LANGUAGE_IN_SQUARE_BRACKETS on a key: the start index of the
leftmost match together with the captured group. -/
def findLangBracket (s : String) : Option (Nat × String) :=
  findLangAux s.data 0

/-- Index of the first opening square bracket of a key, independently of
whether a language pattern matches there (used to state claim C6). -/
def firstLBracketIdx (s : String) : Option Nat :=
  s.data.findIdx? (fun c => c == '[')

/-- DublinCoreElement pydantic model: element and value are required,
qualifier and language are optional. -/
structure DublinCoreElement where
  element : String
  value : String
  qualifier : Option String
  language : Option String

/-- Metadata pydantic model: a single dc field holding the Dublin Core
statement list (the root of the DublinCore root model). -/
structure MetadataV where
  dc : List DublinCoreElement

/-- A Python value as it can appear while building an Item or a DublinCore:
a string, a dict, a list of strings, an already-built list of
DublinCoreElement models, an already-built Metadata model, or some other
value such as an int (neither str nor dict nor list nor model). -/
inductive PyV where
  | str : String → PyV
  | dict : List (String × PyV) → PyV
  | strList : List String → PyV
  | dcList : List DublinCoreElement → PyV
  | metaModel : MetadataV → PyV
  | intV : Int → PyV

/-- An insertion-ordered Python dict with string keys. -/
abbrev Dict := List (String × PyV)

/-- Python dict assignment d[k] = v: replace in place when the key exists,
append otherwise. -/
def dictSet (d : Dict) (k : String) (v : PyV) : Dict :=
  if (List.lookup k d).isSome then
    d.map (fun kv => if kv.1 = k then (k, v) else kv)
  else d ++ [(k, v)]

/-- isinstance(value, pydantic.BaseModel) for the modelled values. -/
def isBaseModel : PyV → Bool
  | .metaModel _ => true
  | _ => false

/-- Item.unflatten_values, first loop: insert a value at a dot-separated
key path, creating intermediate dicts; walking into an existing non-dict
value raises a TypeError in Python, modelled as an error result. -/
def insertPath (d : Dict) (parts : List String) (v : PyV) : Except String Dict :=
  match parts with
  | [] => .ok d
  | [last] => .ok (dictSet d last v)
  | p :: rest =>
    match List.lookup p d with
    | none => do
        let sub ← insertPath [] rest v
        .ok (dictSet d p (.dict sub))
    | some (.dict sd) => do
        let sub ← insertPath sd rest v
        .ok (dictSet d p (.dict sub))
    | some _ => .error ("TypeError: cannot assign below non-dict segment " ++ p)

/-- Item.unflatten_values, first loop over all entries: build the nested
dict from the flat row, splitting each key on the dot. -/
def unflatten (row : Dict) : Except String Dict :=
  row.foldlM (fun acc kv => insertPath acc (pySplit kv.1 ".") kv.2) []

/-- The result of the second loop of Item.unflatten_values: the files value,
if any, and the metadata value.  Top-level BaseModel values under a key other
than metadata or files are kept at top level by the source and then ignored
by pydantic (Item has no such field), so they are dropped here. -/
structure NewValues where
  files : Option PyV
  metadata : PyV

/-- Item.unflatten_values, second loop: route files to the top level, keep
BaseModel values at top level, and fold everything else into the metadata
dict.  Folding into a metadata value that is no longer a dict (because a
metadata BaseModel was assigned first) raises a TypeError in Python. -/
def itemNewValues (nested : Dict) : Except String NewValues :=
  nested.foldlM
    (fun acc kv =>
      if kv.1 = "files" then .ok { acc with files := some kv.2 }
      else if isBaseModel kv.2 then
        if kv.1 = "metadata" then .ok { acc with metadata := kv.2 }
        else .ok acc
      else
        match acc.metadata with
        | .dict d => .ok { acc with metadata := PyV.dict (dictSet d kv.1 kv.2) }
        | _ => .error "TypeError: metadata model does not support item assignment")
    { files := none, metadata := PyV.dict [] }

/-- Item.split_str field validator: a string files value is split on the
literal double pipe separator; any other value passes through. -/
def splitStrV : PyV → PyV
  | .str s => .strList (pySplit s "||")
  | v => v

/-- pydantic validation of the files field (list of Path): each string is
coerced to a path; a non-list value is rejected. -/
def validateFiles : PyV → Except String (List String)
  | .strList xs => .ok (xs.map pathOf)
  | _ => .error "files: input is not a valid list"

/-- pydantic validation of an optional string field of DublinCoreElement. -/
def optStrField (d : Dict) (k : String) : Except String (Option String) :=
  match List.lookup k d with
  | none => .ok none
  | some (.str s) => .ok (some s)
  | some _ => .error (k ++ ": input is not a valid string")

/-- pydantic validation of a DublinCoreElement from a dict: element and
value are required strings, qualifier and language optional strings; extra
keys are ignored (pydantic default). -/
def elemOfDict (d : Dict) : Except String DublinCoreElement := do
  let el ← match List.lookup "element" d with
    | some (.str s) => Except.ok s
    | some _ => Except.error "element: input is not a valid string"
    | none => Except.error "element: field required"
  let v ← match List.lookup "value" d with
    | some (.str s) => Except.ok s
    | some _ => Except.error "value: input is not a valid string"
    | none => Except.error "value: field required"
  let q ← optStrField d "qualifier"
  let l ← optStrField d "language"
  .ok { element := el, value := v, qualifier := q, language := l }

/-- DublinCore.build_list_from_dict_if_needed, mapping case, combined with
the per-element validation pydantic performs on the produced list: a string
value yields one statement whose element is the key, with the language
stripped from the key at the leftmost match of LANGUAGE_IN_SQUARE_BRACKETS;
a dict value gets its element entry set to the key and is validated as a
statement; any other value is skipped by the source (no else branch). -/
def buildList : Dict → Except String (List DublinCoreElement)
  | [] => .ok []
  | (k, v) :: rest =>
    match v with
    | .str s => do
        let e : DublinCoreElement :=
          match findLangBracket k with
          | some (i, g) =>
            { element := pyTake k i, value := s, qualifier := none, language := some g }
          | none =>
            { element := k, value := s, qualifier := none, language := none }
        let tail ← buildList rest
        .ok (e :: tail)
    | .dict d => do
        let e ← elemOfDict (dictSet d "element" (.str k))
        let tail ← buildList rest
        .ok (e :: tail)
    | _ => buildList rest

/-- Validation of the DublinCore root model: an already-built statement list
passes through unchanged; a plain Python list of strings passes the before
validator but each string then fails element validation (only an empty such
list validates); a dict goes through build_list_from_dict_if_needed; any
other value makes the before validator itself fail (values.items() on a
non-dict). -/
def dublinCoreValidate : PyV → Except String (List DublinCoreElement)
  | .dcList es => .ok es
  | .strList ss =>
    match ss with
    | [] => .ok []
    | s :: _ => .error ("dc: input is not a valid DublinCoreElement: " ++ s)
  | .dict kvs => buildList kvs
  | _ => .error "dc: input has no items"

/-- Validation of the Metadata model: an already-built Metadata instance
passes through unchanged; a dict must carry a dc key whose value validates
as a DublinCore; anything else is rejected. -/
def validateMetadata : PyV → Except String MetadataV
  | .metaModel m => .ok m
  | .dict kvs =>
    match List.lookup "dc" kvs with
    | some v => do
        let es ← dublinCoreValidate v
        .ok ⟨es⟩
    | none => .error "metadata.dc: field required"
  | _ => .error "metadata: input is not a valid Metadata"

/-- A validated Item: the files list (normalised path strings) and the
Dublin Core statement list of its metadata. -/
structure ItemL where
  files : List String
  dc : List DublinCoreElement

/-- Item construction Item(**row): unflatten the row, route the entries,
then validate the files field (after the split_str before validator) and
the metadata field. -/
def itemOf (row : Dict) : Except String ItemL := do
  let nested ← unflatten row
  let nv ← itemNewValues nested
  let fv ← match nv.files with
    | some v => Except.ok v
    | none => Except.error "files: field required"
  let files ← validateFiles (splitStrV fv)
  let meta ← validateMetadata nv.metadata
  .ok { files := files, dc := meta.dc }

/-- The dcvalue element produced by the dcvalue function: its attributes in
declared order and its optional text. -/
structure DcvalueElem where
  attribs : List (String × String)
  text : Option String

/-- The Python expression qualifier or "none": the fallback is taken both
when the qualifier is absent and when it is the empty string (falsy). -/
def pyOrNone (q : Option String) : String :=
  match q with
  | some s => if s = "" then "none" else s
  | none => "none"

/-- The dcvalue function: attributes element and qualifier always, language
only when truthy; the text is set only when truthy (nonempty). -/
def dcvalue (element : String) (qualifier language text : Option String) : DcvalueElem :=
  { attribs :=
      [("element", element), ("qualifier", pyOrNone qualifier)] ++
        (match language with
         | some l => if l = "" then [] else [("language", l)]
         | none => []),
    text :=
      match text with
      | some t => if t = "" then none else some t
      | none => none }

/-- The dcvalue call made by build_xml for one statement. -/
def dcvalueOfElem (e : DublinCoreElement) : DcvalueElem :=
  dcvalue e.element e.qualifier e.language (some e.value)

/-- xml.etree attribute escaping for the characters the modelled data can
contain (character references for non-ASCII are not modelled). -/
def escAttr (s : String) : String :=
  String.join (s.data.map fun c =>
    if c = '&' then "&amp;"
    else if c = '<' then "&lt;"
    else if c = '>' then "&gt;"
    else if c = '"' then "&quot;"
    else if c = '\t' then "&#09;"
    else if c = '\n' then "&#10;"
    else if c = '\r' then "&#13;"
    else String.mk [c])

/-- xml.etree text escaping. -/
def escText (s : String) : String :=
  String.join (s.data.map fun c =>
    if c = '&' then "&amp;"
    else if c = '<' then "&lt;"
    else if c = '>' then "&gt;"
    else String.mk [c])

/-- Serialisation of an attribute list, in declared order. -/
def writeAttribs (attribs : List (String × String)) : String :=
  String.join (attribs.map fun kv => " " ++ kv.1 ++ "=\"" ++ escAttr kv.2 ++ "\"")

/-- xml.etree serialisation of one dcvalue element: self-closing when it has
no text. -/
def writeDcvalue (e : DcvalueElem) : String :=
  match e.text with
  | some t => "<dcvalue" ++ writeAttribs e.attribs ++ ">" ++ escText t ++ "</dcvalue>"
  | none => "<dcvalue" ++ writeAttribs e.attribs ++ " />"

/-- build_xml followed by ElementTree.write: the dublin_core root with its
schema attribute and one dcvalue child per statement, in order; no XML
declaration and no whitespace between tags (default us-ascii encoding). -/
def buildXmlBytes (dc : List DublinCoreElement) (schema : String) : String :=
  match dc with
  | [] => "<dublin_core schema=\"" ++ escAttr schema ++ "\" />"
  | _ =>
    "<dublin_core schema=\"" ++ escAttr schema ++ "\">"
      ++ String.join (dc.map fun e => writeDcvalue (dcvalueOfElem e))
      ++ "</dublin_core>"

/-- Python format of an item number with f-string 03d: zero-padded to at
least three digits. -/
def pad3 (n : Nat) : String :=
  let s := toString n
  if s.length < 3 then String.mk (List.replicate (3 - s.length) '0') ++ s else s

/-- The per-item directory or entry prefix item_NNN. -/
def itemDirName (n : Nat) : String :=
  "item_" ++ pad3 n

/-- The contents listing of an item: the base name of each referenced file,
one per line, newline-terminated, in file order (identical in both write
modes: write_contents_file and the zip contents entry both use the name). -/
def contentsOf (it : ItemL) : String :=
  String.join (it.files.map fun f => pathName f ++ "\n")

/-- The logical content written by SimpleArchive.write_to_path for one item,
as path-to-bytes entries: the contents file, then each referenced file copied
flat under its base name (shutil.copy with the item directory as target),
then dublin_core.xml.  The file-content oracle fc maps each input-relative
path to the bytes of the source file. -/
def dirItemEntries (fc : String → String) (i : Nat) (it : ItemL) : List (String × String) :=
  (itemDirName i ++ "/contents", contentsOf it)
    :: it.files.map (fun f => (itemDirName i ++ "/" ++ pathName f, fc f))
    ++ [(itemDirName i ++ "/dublin_core.xml", buildXmlBytes it.dc "dc")]

/-- The logical content written by SimpleArchive.write_to_zip for one item:
each referenced file under its full relative path, then the contents entry,
then dublin_core.xml. -/
def zipItemEntries (fc : String → String) (i : Nat) (it : ItemL) : List (String × String) :=
  it.files.map (fun f => (itemDirName i ++ "/" ++ f, fc f))
    ++ [(itemDirName i ++ "/contents", contentsOf it),
        (itemDirName i ++ "/dublin_core.xml", buildXmlBytes it.dc "dc")]

/-- All entries written by write_to_path from item number i on. -/
def writeToPathEntries (fc : String → String) : Nat → List ItemL → List (String × String)
  | _, [] => []
  | i, it :: rest => dirItemEntries fc i it ++ writeToPathEntries fc (i + 1) rest

/-- All entries written by write_to_zip from item number i on. -/
def writeToZipEntries (fc : String → String) : Nat → List ItemL → List (String × String)
  | _, [] => []
  | i, it :: rest => zipItemEntries fc i it ++ writeToZipEntries fc (i + 1) rest

/-- The two output modes of the use case. -/
inductive WriteMode where
  | directory
  | zipContainer

/-- The dispatch logic of CreateSimpleArchiveFromCSVWriteToPath.execute:
with no output path the mode is the explicit flag; with an explicit output
path the flag is turned on when the path suffix equals the string zip
(without a dot, as written in the source). -/
def executeMode (outputPath : Option String) (createZip : Bool) : WriteMode :=
  match outputPath with
  | none => if createZip then .zipContainer else .directory
  | some p =>
    let cz := if createZip then true else pySuffix p = "zip"
    if cz then .zipContainer else .directory

/-- Claim C1, evaluation of the code at the failing input (the input of the
repository test test_simple_archive): splitting the empty files string on
the double pipe yields a singleton list holding the empty string, so the
constructed Item has one file (the empty path, normalising to the current
directory), not an empty files sequence as the claim states. -/
theorem c1_empty_files_code_eval :
    pySplit "" "||" = [""]
    ∧ itemOf [("files", PyV.str ""), ("dc.title", PyV.str "Empty")]
        = Except.ok ⟨["."], [⟨"title", "Empty", none, none⟩]⟩
    ∧ itemOf [("files", PyV.str ""), ("dc.title", PyV.str "Empty")]
        ≠ Except.ok ⟨[], [⟨"title", "Empty", none, none⟩]⟩ := by
  refine ⟨rfl, rfl, fun h => ?_⟩
  exact absurd (congrArg (fun e => match e with
    | Except.ok it => it.files.length
    | Except.error _ => 0) h) (by decide)

/-- Claim C2, evaluation of the code at the failing input: the suffix of the
output path out.zip is the dot-prefixed string .zip, which is never equal to
the bare string zip the source compares against, so with an explicit zip
output path and the zip flag off the orchestrator dispatches to directory
writing, not to container writing as the claim states. -/
theorem c2_zip_suffix_dispatch_eval :
    pySuffix "out.zip" = ".zip"
    ∧ executeMode (some "out.zip") false = WriteMode.directory :=
  ⟨rfl, rfl⟩

/-- Claim C3 as stated is false: for an item referencing a file in a
subdirectory, directory mode copies it flat under its base name while
container mode stores it under its full relative path, so the per-item
entries are not a permutation of each other. -/
theorem c3_subdir_counterexample :
    ¬ List.Perm (dirItemEntries (fun _ => "B") 0 ⟨["sub/a.txt"], []⟩)
      (zipItemEntries (fun _ => "B") 0 ⟨["sub/a.txt"], []⟩) := by
  decide

theorem dirZipItemPerm (fc : String → String) (i : Nat) (it : ItemL)
    (h : ∀ f ∈ it.files, pathName f = f) :
    List.Perm (dirItemEntries fc i it) (zipItemEntries fc i it) := by
  unfold dirItemEntries zipItemEntries
  have hm : it.files.map (fun f => (itemDirName i ++ "/" ++ pathName f, fc f))
      = it.files.map (fun f => (itemDirName i ++ "/" ++ f, fc f)) :=
    List.map_congr_left (fun f hf => by rw [h f hf])
  rw [hm]
  exact List.perm_middle.symm

/-- Claim C3 amended: when every referenced file path is a bare name (equal
to its own base name, no directory component), directory mode and container
mode write the same logical content: the same set of path-to-bytes entries
per item (contents listing, metadata document and file bytes), differing
only in entry order. -/
theorem c3_modes_equivalent (fc : String → String) :
    ∀ items : List ItemL, (∀ it ∈ items, ∀ f ∈ it.files, pathName f = f) →
    ∀ i : Nat, List.Perm (writeToPathEntries fc i items) (writeToZipEntries fc i items) := by
  intro items
  induction items with
  | nil => intro _ i; exact List.Perm.refl _
  | cons it rest ih =>
    intro h i
    exact List.Perm.append
      (dirZipItemPerm fc i it (fun f hf => h it (List.mem_cons_self it rest) f hf))
      (ih (fun it2 h2 f hf => h it2 (List.mem_cons_of_mem it h2) f hf) (i + 1))

/-- Witness for the amended claim C3 at a concrete one-item archive whose
single file path is a bare name. -/
theorem c3_modes_equivalent_witness :
    (∀ it ∈ ([⟨["a.txt"], [⟨"title", "T", none, none⟩]⟩] : List ItemL),
      ∀ f ∈ it.files, pathName f = f)
    ∧ List.Perm
        (writeToPathEntries (fun _ => "B") 0 [⟨["a.txt"], [⟨"title", "T", none, none⟩]⟩])
        (writeToZipEntries (fun _ => "B") 0 [⟨["a.txt"], [⟨"title", "T", none, none⟩]⟩]) :=
  ⟨by decide, c3_modes_equivalent (fun _ => "B") _ (by decide) 0⟩

/-- Claim C4 as stated is false: building a DublinCore from a mapping whose
single entry holds an int (neither string nor mapping) succeeds with an
empty statement list instead of failing. -/
theorem c4_other_value_accepted :
    dublinCoreValidate (PyV.dict [("title", PyV.intV 42)]) = Except.ok [] :=
  rfl

/-- Claim C4 amended: an entry whose value is neither a plain string nor a
mapping is silently dropped, construction succeeds and behaves exactly as if
the entry were absent. -/
theorem c4_other_value_dropped (k : String) (n : Int) (rest : Dict) :
    dublinCoreValidate (PyV.dict ((k, PyV.intV n) :: rest))
      = dublinCoreValidate (PyV.dict rest) :=
  rfl

/-- Claim C5 as stated is false: a flat mapping containing the malformed key
consisting of dc followed by a trailing dot (empty final segment) constructs
an Item successfully, producing a statement with an empty element name,
instead of failing with a validation error naming the key. -/
theorem c5_malformed_key_accepted :
    itemOf [("files", PyV.str "a.txt"), ("dc.", PyV.str "x")]
      = Except.ok ⟨["a.txt"], [⟨"", "x", none, none⟩]⟩ :=
  rfl

/-- Claim C5 amended: malformed keys are not detected; an empty trailing
segment flows through the unflattening, and for any value the row with key
dc followed by a dot yields a successfully constructed Item whose single
metadata statement has the empty string as element name. -/
theorem c5_malformed_key_amended (v : String) :
    itemOf [("files", PyV.str "a.txt"), ("dc.", PyV.str v)]
      = Except.ok ⟨["a.txt"], [⟨"", v, none, none⟩]⟩ :=
  rfl

/-- Claim C6 as stated is false: for the key with a non-matching bracket
group before the language bracket, the emitted element is the prefix before
the leftmost match of the language pattern, not the prefix before the first
opening-bracket occurrence. -/
theorem c6_first_bracket_counterexample :
    buildList [("x[1][en]", PyV.str "v")]
      = Except.ok [⟨"x[1]", "v", none, some "en"⟩]
    ∧ firstLBracketIdx "x[1][en]" = some 1
    ∧ ("x[1]" : String) ≠ pyTake "x[1][en]" 1 := by
  refine ⟨rfl, rfl, ?_⟩
  decide

/-- Claim C6 amended: for a mapping entry with a plain-string value whose
key matches the language pattern, the emitted statement has element equal to
the key prefix before the start of the leftmost bracket group of letters and
underscores, language equal to that group, value equal to the entry value,
and no qualifier. -/
theorem c6_language_suffix_amended (k v : String) (i : Nat) (g : String) (rest : Dict)
    (h : findLangBracket k = some (i, g)) :
    buildList ((k, PyV.str v) :: rest)
      = Except.map (fun tail => ⟨pyTake k i, v, none, some g⟩ :: tail) (buildList rest) := by
  simp only [buildList, h]
  cases hb : buildList rest <;> rfl

/-- Witness for the amended claim C6 at the key of the repository test
test_dublin_core_with_language. -/
theorem c6_language_suffix_amended_witness :
    findLangBracket "description[sv_SE]" = some (11, "sv_SE")
    ∧ buildList [("description[sv_SE]", PyV.str "beskrivning")]
        = Except.map
            (fun tail => ⟨pyTake "description[sv_SE]" 11, "beskrivning", none, some "sv_SE"⟩ :: tail)
            (buildList []) :=
  ⟨rfl, c6_language_suffix_amended _ _ _ _ _ rfl⟩

/-- Claim C7 as stated is false: for a statement whose qualifier is the
empty string (present, not absent) and whose language is the empty string,
the produced dcvalue node renders the qualifier attribute as the literal
none rather than as the empty qualifier value, and emits no language
attribute although the statement has a language. -/
theorem c7_empty_qualifier_counterexample :
    (dcvalueOfElem ⟨"a", "v", some "", some ""⟩).attribs
      = [("element", "a"), ("qualifier", "none")]
    ∧ List.lookup "qualifier" (dcvalueOfElem ⟨"a", "v", some "", some ""⟩).attribs
        ≠ some ((some "").getD "none")
    ∧ (some "" : Option String).isSome = true
    ∧ ¬ ("language" ∈ (dcvalueOfElem ⟨"a", "v", some "", some ""⟩).attribs.map Prod.fst) := by
  refine ⟨rfl, ?_, rfl, ?_⟩ <;> decide

/-- Claim C7 amended: the dcvalue node has attribute element equal to the
element of the statement; attribute qualifier equal to the qualifier when it
is present and nonempty and to the literal none otherwise; an attribute
language exactly when the language is present and nonempty, holding it; and
text equal to the value unless the value is empty, in which case no text is
set. -/
theorem c7_dcvalue_serialization (e : DublinCoreElement) :
    List.lookup "element" (dcvalueOfElem e).attribs = some e.element
    ∧ List.lookup "qualifier" (dcvalueOfElem e).attribs
        = some (match e.qualifier with
                | some q => if q = "" then "none" else q
                | none => "none")
    ∧ List.lookup "language" (dcvalueOfElem e).attribs
        = (match e.language with
           | some l => if l = "" then none else some l
           | none => none)
    ∧ (dcvalueOfElem e).text = (if e.value = "" then none else some e.value) := by
  obtain ⟨el, v, q, l⟩ := e
  refine ⟨rfl, rfl, ?_, rfl⟩
  cases l with
  | none => rfl
  | some lg =>
    by_cases hl : lg = ""
    · subst hl; rfl
    · have ha : (dcvalueOfElem ⟨el, v, q, some lg⟩).attribs
          = [("element", el), ("qualifier", pyOrNone q), ("language", lg)] := by
        simp [dcvalueOfElem, dcvalue, hl]
      rw [ha]
      show List.lookup "language" [("element", el), ("qualifier", pyOrNone q), ("language", lg)]
          = if lg = "" then none else some lg
      rw [if_neg hl]
      rfl

/-- Claim C8 confirmed: validating the DublinCore root model from an
already-built ordered list of statements is the identity on that list. -/
theorem c8_list_form_identity (es : List DublinCoreElement) :
    dublinCoreValidate (PyV.dcList es) = Except.ok es :=
  rfl

/-- Claim C9 confirmed: in dcvalue, an empty-string qualifier produces the
same node as an absent qualifier (the attribute renders as the literal
none), and an empty-string language produces the same node as an absent
language (no language attribute). -/
theorem c9_empty_treated_as_absent (el : String) (q l t : Option String) :
    dcvalue el (some "") l t = dcvalue el none l t
    ∧ dcvalue el q (some "") t = dcvalue el q none t :=
  ⟨rfl, rfl⟩

/-- Claim C10 confirmed: an already-typed Metadata value under the metadata
key is kept at the top level and passed through unchanged rather than folded
into the metadata sub-mapping, and the Item built from explicit typed fields
equals the one built from the equivalent flat string row. -/
theorem c10_typed_values_pass_through :
    (∀ (m : MetadataV) (s : String),
        itemOf [("files", PyV.str s), ("metadata", PyV.metaModel m)]
          = Except.ok ⟨(pySplit s "||").map pathOf, m.dc⟩)
    ∧ itemOf [("files", PyV.strList ["simple.txt"]),
          ("metadata", PyV.metaModel ⟨[⟨"title", "Simple", none, none⟩]⟩)]
        = itemOf [("files", PyV.str "simple.txt"), ("dc.title", PyV.str "Simple")] :=
  ⟨fun _ _ => rfl, rfl⟩
